import Mathlib

/-!
Verification of the Match Timer (stopwatch) component of the
Statistiche-Calcio repository, embedded from
`src/src/components/Sidebar.tsx` (the `Stopwatch` React component).

State fields keep the source's names:
  `time`                  — the spec's `elapsedMs`
  `isRunning`             — the spec's `running`
  `isSelectingLabel`      — the spec's `selectingLabel`
  `currentDisplayedLabel` — the spec's `displayedLabel` (absent = `none`)
-/

/-- The React component's state: `useState` hooks `time`, `isRunning`,
`isSelectingLabel`, `currentDisplayedLabel` of `Stopwatch`. -/
structure StopwatchState where
  time : Nat
  isRunning : Bool
  isSelectingLabel : Bool
  currentDisplayedLabel : Option String
deriving Repr, DecidableEq

/-- The initial hook values: `useState(0)`, `useState(false)`,
`useState(false)`, `useState<string | null>(null)`. -/
def initState : StopwatchState :=
  { time := 0, isRunning := false, isSelectingLabel := false,
    currentDisplayedLabel := none }

/-- `const timePointLabels = ['1° Tempo', ...]` from the source. -/
def timePointLabels : List String :=
  ["1° Tempo", "2° Tempo", "3° Tempo", "4° Tempo", "Tempo Supplementare",
   "Intervallo", "Fine Partita"]

/-- `handleStartStop`: `setIsRunning(!isRunning)`; then
`if (isRunning) setIsSelectingLabel(false)` — `isRunning` is the value
captured before the toggle. -/
def handleStartStop (s : StopwatchState) : StopwatchState :=
  let s1 := { s with isRunning := !s.isRunning }
  if s.isRunning then { s1 with isSelectingLabel := false } else s1

/-- `handleReset`: `setIsRunning(false); setTime(0); setIsSelectingLabel(false);
setCurrentDisplayedLabel(null)`, unconditionally.  (The `clearInterval` call is
a timer-resource action with no effect on these four state fields.) -/
def handleReset (_s : StopwatchState) : StopwatchState :=
  { time := 0, isRunning := false, isSelectingLabel := false,
    currentDisplayedLabel := none }

/-- `handleShowLabelSelection`: `if (isRunning) setIsSelectingLabel(true)`. -/
def handleShowLabelSelection (s : StopwatchState) : StopwatchState :=
  if s.isRunning then { s with isSelectingLabel := true } else s

/-- `handleSelectTimePoint(label)`: `if (isRunning) {
setCurrentDisplayedLabel(label); setIsSelectingLabel(false) }`. -/
def handleSelectTimePoint (label : String) (s : StopwatchState) : StopwatchState :=
  if s.isRunning then
    { s with currentDisplayedLabel := some label, isSelectingLabel := false }
  else s

/-- The interval callback `setTime((prevTime) => prevTime + 10)`, installed by
the `useEffect` only while `isRunning` is true; hence a tick has an effect
exactly when the state is running. -/
def tick (s : StopwatchState) : StopwatchState :=
  if s.isRunning then { s with time := s.time + 10 } else s

/-- The operations that can reach the component: the three operator buttons,
label choice, and the internal timer tick. -/
inductive Op where
  | toggleRunning
  | reset
  | requestLabelSelection
  | selectLabel (label : String)
  | tick
deriving Repr, DecidableEq

/-- Dispatch an operation to the handler that implements it in the source. -/
def applyOp (s : StopwatchState) : Op → StopwatchState
  | Op.toggleRunning => handleStartStop s
  | Op.reset => handleReset s
  | Op.requestLabelSelection => handleShowLabelSelection s
  | Op.selectLabel l => handleSelectTimePoint l s
  | Op.tick => tick s

/-- Run a finite sequence of operations from a state. -/
def runOps (s : StopwatchState) (ops : List Op) : StopwatchState :=
  ops.foldl applyOp s

/-- JavaScript's `String.prototype.padStart(targetLength, padString)` for a
one-character pad string: left-pad to `n` characters, never truncate. -/
def padStart (s : String) (n : Nat) (c : Char) : String :=
  String.mk (List.replicate (n - s.length) c) ++ s

/-- `const pad = (num) => num.toString().padStart(2, '0')` in `formatTime`. -/
def pad (num : Nat) : String :=
  padStart (Nat.repr num) 2 '0'

/-- `formatTime` from the source: minutes, seconds, centiseconds fields
joined as `MM:SS.CC`. -/
def formatTime (milliseconds : Nat) : String :=
  let minutes := milliseconds / 60000
  let seconds := (milliseconds % 60000) / 1000
  let centiseconds := (milliseconds % 1000) / 10
  pad minutes ++ ":" ++ pad seconds ++ "." ++ pad centiseconds

/-- The `selectingLabel ⇒ running` invariant as a predicate on states. -/
def selImpliesRun (s : StopwatchState) : Prop :=
  s.isSelectingLabel = true → s.isRunning = true

lemma applyOp_preserves_selImpliesRun (s : StopwatchState) (op : Op)
    (h : selImpliesRun s) : selImpliesRun (applyOp s op) := by
  cases op with
  | toggleRunning =>
    simp only [applyOp, handleStartStop, selImpliesRun] at *
    cases hr : s.isRunning with
    | false => simp [hr]
    | true => simp [hr]
  | reset => simp [applyOp, handleReset, selImpliesRun]
  | requestLabelSelection =>
    simp only [applyOp, handleShowLabelSelection, selImpliesRun] at *
    cases hr : s.isRunning with
    | false => simpa [hr] using h
    | true => simp [hr]
  | selectLabel l =>
    simp only [applyOp, handleSelectTimePoint, selImpliesRun] at *
    cases hr : s.isRunning with
    | false => simpa [hr] using h
    | true => simp [hr]
  | tick =>
    simp only [applyOp, tick, selImpliesRun] at *
    cases hr : s.isRunning with
    | false => simpa [hr] using h
    | true => simp [hr]

lemma runOps_preserves_selImpliesRun (s : StopwatchState) (ops : List Op)
    (h : selImpliesRun s) : selImpliesRun (runOps s ops) := by
  induction ops generalizing s with
  | nil => exact h
  | cons op rest ih =>
    exact ih (applyOp s op) (applyOp_preserves_selImpliesRun s op h)

/-- C1: starting from the initial state, after every finite sequence of the
operations toggleRunning, reset, requestLabelSelection, selectLabel and tick,
the reached state satisfies `selectingLabel = true → running = true`. -/
theorem c1_selectingLabel_implies_running (ops : List Op)
    (h : (runOps initState ops).isSelectingLabel = true) :
    (runOps initState ops).isRunning = true :=
  runOps_preserves_selImpliesRun initState ops (by simp [initState, selImpliesRun]) h

/-- Witness for C1: the sequence start-then-requestLabelSelection reaches a
state with `selectingLabel = true`, and the theorem yields `running = true`. -/
theorem c1_witness :
    (runOps initState [Op.toggleRunning, Op.requestLabelSelection]).isSelectingLabel = true ∧
    (runOps initState [Op.toggleRunning, Op.requestLabelSelection]).isRunning = true :=
  ⟨by decide, c1_selectingLabel_implies_running
    [Op.toggleRunning, Op.requestLabelSelection] (by decide)⟩

/-- C3: `toggleRunning` flips `running`; stopping (running→stopped) also
forces `selectingLabel = false`; starting (stopped→running) leaves all other
fields unchanged.  The operation is a total function, so it never fails. -/
theorem c3_toggleRunning (s : StopwatchState) :
    (handleStartStop s).isRunning = !s.isRunning
    ∧ (s.isRunning = true → (handleStartStop s).isSelectingLabel = false)
    ∧ (s.isRunning = false →
        (handleStartStop s).time = s.time
        ∧ (handleStartStop s).isSelectingLabel = s.isSelectingLabel
        ∧ (handleStartStop s).currentDisplayedLabel = s.currentDisplayedLabel) := by
  cases hr : s.isRunning <;> simp [handleStartStop, hr]

/-- Witness for C3: both hypotheses discharged at concrete states — a running
state for the stopping branch and a stopped state for the starting branch. -/
theorem c3_witness :
    (handleStartStop ⟨50, true, true, some "1° Tempo"⟩).isSelectingLabel = false
    ∧ (handleStartStop ⟨50, false, false, some "1° Tempo"⟩).time = 50 := by
  refine ⟨(c3_toggleRunning ⟨50, true, true, some "1° Tempo"⟩).2.1 rfl, ?_⟩
  exact ((c3_toggleRunning ⟨50, false, false, some "1° Tempo"⟩).2.2 rfl).1

/-- C4: `reset` maps every state — including running ones — to the Idle state
(`elapsedMs = 0`, `running = false`, `selectingLabel = false`,
`displayedLabel` absent); in particular the scenario
start → selectLabel("1st Half") → toggleRunning → reset ends in exactly the
initial state. -/
theorem c4_reset :
    (∀ s : StopwatchState, handleReset s = initState)
    ∧ runOps initState
        [Op.toggleRunning, Op.selectLabel "1st Half", Op.toggleRunning, Op.reset]
        = initState :=
  ⟨fun _ => rfl, by decide⟩

/-- C5: when running, `selectLabel(l)` sets `displayedLabel = l` (replacing
any previous label, with no membership check against `timePointLabels`) and
clears `selectingLabel`, leaving `elapsedMs` and `running` unchanged; when not
running it is the identity.  The scenario
start → requestLabelSelection → selectLabel("2nd Half") ends with
`displayedLabel = "2nd Half"`, `selectingLabel = false`, `running = true`. -/
theorem c5_selectLabel :
    (∀ (s : StopwatchState) (l : String),
      (s.isRunning = true → handleSelectTimePoint l s
          = { s with currentDisplayedLabel := some l, isSelectingLabel := false })
      ∧ (s.isRunning = false → handleSelectTimePoint l s = s))
    ∧ (∀ l : String, l ∉ timePointLabels → ∀ s : StopwatchState,
        s.isRunning = true → (handleSelectTimePoint l s).currentDisplayedLabel = some l)
    ∧ (runOps initState
        [Op.toggleRunning, Op.requestLabelSelection, Op.selectLabel "2nd Half"]
        = { time := 0, isRunning := true, isSelectingLabel := false,
            currentDisplayedLabel := some "2nd Half" }) := by
  refine ⟨fun s l => ⟨fun hr => ?_, fun hr => ?_⟩, fun l _ s hr => ?_, by decide⟩
  · simp [handleSelectTimePoint, hr]
  · simp [handleSelectTimePoint, hr]
  · simp [handleSelectTimePoint, hr]

/-- Witness for C5: its hypotheses discharged at concrete inputs — a running
state, a stopped state, and a label outside the fixed period-label set. -/
theorem c5_witness :
    (handleSelectTimePoint "2nd Half" ⟨30, true, true, some "old"⟩
      = ⟨30, true, false, some "2nd Half"⟩)
    ∧ (handleSelectTimePoint "2nd Half" ⟨30, false, false, none⟩
      = ⟨30, false, false, none⟩)
    ∧ (handleSelectTimePoint "not a period" ⟨0, true, false, none⟩).currentDisplayedLabel
      = some "not a period" := by
  refine ⟨(c5_selectLabel.1 ⟨30, true, true, some "old"⟩ "2nd Half").1 rfl,
    (c5_selectLabel.1 ⟨30, false, false, none⟩ "2nd Half").2 rfl,
    c5_selectLabel.2.1 "not a period" (by decide) ⟨0, true, false, none⟩ rfl⟩

/-- C6: when running, `requestLabelSelection` sets `selectingLabel = true`
leaving the other fields unchanged; when not running the call is silently
ignored and the whole state is unchanged (no error is surfaced). -/
theorem c6_requestLabelSelection (s : StopwatchState) :
    (s.isRunning = true →
      handleShowLabelSelection s = { s with isSelectingLabel := true })
    ∧ (s.isRunning = false → handleShowLabelSelection s = s) := by
  cases hr : s.isRunning <;> simp [handleShowLabelSelection, hr]

/-- Witness for C6: both hypotheses discharged at concrete states. -/
theorem c6_witness :
    (handleShowLabelSelection ⟨20, true, false, none⟩ = ⟨20, true, true, none⟩)
    ∧ (handleShowLabelSelection ⟨20, false, false, none⟩ = ⟨20, false, false, none⟩) :=
  ⟨(c6_requestLabelSelection ⟨20, true, false, none⟩).1 rfl,
   (c6_requestLabelSelection ⟨20, false, false, none⟩).2 rfl⟩

/-- C7: while running, each tick increments `elapsedMs` by exactly 10 and
changes nothing else; no operation other than tick ever increases `elapsedMs`;
and the scenario start → 3 ticks → stop ends with `elapsedMs = 30`,
`running = false`.  (The fixed real-time 10 ms firing period is a property of
the host scheduler, outside the state machine.) -/
theorem c7_tick :
    (∀ s : StopwatchState, s.isRunning = true → tick s = { s with time := s.time + 10 })
    ∧ (∀ (s : StopwatchState) (op : Op), op ≠ Op.tick → (applyOp s op).time ≤ s.time)
    ∧ runOps initState
        [Op.toggleRunning, Op.tick, Op.tick, Op.tick, Op.toggleRunning]
        = { time := 30, isRunning := false, isSelectingLabel := false,
            currentDisplayedLabel := none } := by
  refine ⟨fun s hr => by simp [tick, hr], fun s op hop => ?_, by decide⟩
  cases op with
  | toggleRunning => cases hr : s.isRunning <;> simp [applyOp, handleStartStop, hr]
  | reset => simp [applyOp, handleReset]
  | requestLabelSelection =>
    cases hr : s.isRunning <;> simp [applyOp, handleShowLabelSelection, hr]
  | selectLabel l =>
    cases hr : s.isRunning <;> simp [applyOp, handleSelectTimePoint, hr]
  | tick => exact absurd rfl hop

/-- Witness for C7: the tick hypothesis discharged at a concrete running
state and the non-tick hypothesis at the concrete operation `reset`. -/
theorem c7_witness :
    tick ⟨20, true, false, none⟩ = ⟨30, true, false, none⟩
    ∧ (applyOp ⟨20, true, false, none⟩ Op.reset).time ≤ 20 :=
  ⟨c7_tick.1 ⟨20, true, false, none⟩ rfl,
   c7_tick.2.1 ⟨20, true, false, none⟩ Op.reset (by decide)⟩

/-- C9: `reset` is idempotent — applying it twice equals applying it once,
and both give the Idle state. -/
theorem c9_reset_idempotent (s : StopwatchState) :
    handleReset (handleReset s) = handleReset s ∧ handleReset s = initState :=
  ⟨rfl, rfl⟩

/-- C10: `displayedLabel` is untouched by `toggleRunning` (both directions),
`requestLabelSelection` and `tick`; a label selected while running remains
displayed after stopping, until `reset` clears it. -/
theorem c10_displayedLabel_frame :
    (∀ s : StopwatchState,
      (handleStartStop s).currentDisplayedLabel = s.currentDisplayedLabel
      ∧ (handleShowLabelSelection s).currentDisplayedLabel = s.currentDisplayedLabel
      ∧ (tick s).currentDisplayedLabel = s.currentDisplayedLabel)
    ∧ (runOps initState
        [Op.toggleRunning, Op.selectLabel "1° Tempo", Op.toggleRunning]).currentDisplayedLabel
        = some "1° Tempo"
    ∧ (handleReset (runOps initState
        [Op.toggleRunning, Op.selectLabel "1° Tempo", Op.toggleRunning])).currentDisplayedLabel
        = none := by
  refine ⟨fun s => ?_, by decide, by decide⟩
  cases hr : s.isRunning <;>
    simp [handleStartStop, handleShowLabelSelection, tick, hr]

lemma toDigitsCore_length_lower (b : Nat) (hb : 2 ≤ b) :
    ∀ (fuel n e : Nat) (ds : List Char), b ^ e ≤ n → e < fuel →
      e + 1 + ds.length ≤ (Nat.toDigitsCore b fuel n ds).length := by
  intro fuel
  induction fuel with
  | zero => intro n e ds _ h; omega
  | succ fuel ih =>
    intro n e ds hpow hlt
    have hb0 : 0 < b := by omega
    simp only [Nat.toDigitsCore]
    split
    · rename_i hdiv
      have hnb : n < b := (Nat.div_eq_zero_iff hb0).mp hdiv
      have he : e = 0 := by
        by_contra h0
        have h1 : 1 ≤ e := Nat.one_le_iff_ne_zero.mpr h0
        have h2 : b ^ 1 ≤ b ^ e := Nat.pow_le_pow_right hb0 h1
        simp only [pow_one] at h2
        omega
      simp [he]; omega
    · rename_i hdiv
      cases e with
      | zero =>
        cases fuel with
        | zero => simp [Nat.toDigitsCore]; omega
        | succ fuel' =>
          have h1 : (1 : Nat) ≤ n / b := Nat.one_le_iff_ne_zero.mpr hdiv
          have h2 := ih (n / b) 0 ((n % b).digitChar :: ds) (by simpa using h1) (by omega)
          simp only [List.length_cons] at h2
          omega
      | succ e' =>
        have hpow' : b ^ e' ≤ n / b := by
          rw [Nat.le_div_iff_mul_le hb0]
          calc b ^ e' * b = b ^ (e' + 1) := (pow_succ b e').symm
            _ ≤ n := hpow
        have h2 := ih (n / b) e' ((n % b).digitChar :: ds) hpow' (by omega)
        simp only [List.length_cons] at h2
        omega

lemma repr_length_lower (n e : Nat) (h : 10 ^ e ≤ n) :
    e + 1 ≤ (Nat.repr n).length := by
  have h2 : e < 10 ^ e := Nat.lt_pow_self (by omega) e
  have hfuel : e < n + 1 := by omega
  have h3 := toDigitsCore_length_lower 10 (by omega) (n + 1) n e [] h hfuel
  simp only [List.length_nil, Nat.add_zero] at h3
  exact h3

lemma padStart_length (s : String) (n : Nat) (c : Char) :
    (padStart s n c).length = max n s.length := by
  simp only [padStart, String.length_append]
  simp
  omega

lemma pad_length (n : Nat) : (pad n).length = max 2 (Nat.repr n).length := by
  simp [pad, padStart_length]

lemma pad_eq_repr (n : Nat) (h : 100 ≤ n) : pad n = Nat.repr n := by
  have h3 : 3 ≤ (Nat.repr n).length := repr_length_lower n 2 (by simpa using h)
  have h0 : 2 - (Nat.repr n).length = 0 := by omega
  simp [pad, padStart, h0]

lemma pad_length_eq_two (n : Nat) (h : n < 100) : (pad n).length = 2 := by
  have h2 : (Nat.repr n).length ≤ 2 := Nat.repr_length n 2 (by omega) (by simpa using h)
  have h1 := pad_length n
  omega

/-- C2: `formatTime ms` is `MM:SS.CC` where `MM` is the decimal numeral of
`ms / 60000` zero-left-padded to at least 2 characters and never truncated
(at ≥ 100 minutes it is the full numeral, of 3 or more digits), `SS` is
`ms % 60000 / 1000` padded to exactly 2 characters, `CC` is
`ms % 1000 / 10` padded to exactly 2 characters; the three reference examples
hold, and for every `ms < 60000` the minutes field is `"00"`. -/
theorem c2_formatTime :
    (∀ ms : Nat, formatTime ms
        = pad (ms / 60000) ++ ":" ++ pad (ms % 60000 / 1000) ++ "." ++ pad (ms % 1000 / 10))
    ∧ (∀ ms : Nat, 2 ≤ (pad (ms / 60000)).length
        ∧ pad (ms / 60000)
            = String.mk (List.replicate (2 - (Nat.repr (ms / 60000)).length) '0')
              ++ Nat.repr (ms / 60000))
    ∧ (∀ ms : Nat, 6000000 ≤ ms →
        3 ≤ (pad (ms / 60000)).length ∧ pad (ms / 60000) = Nat.repr (ms / 60000))
    ∧ (∀ ms : Nat, (pad (ms % 60000 / 1000)).length = 2
        ∧ (pad (ms % 1000 / 10)).length = 2)
    ∧ formatTime 0 = "00:00.00"
    ∧ formatTime 61234 = "01:01.23"
    ∧ formatTime 600000 = "10:00.00"
    ∧ (∀ ms : Nat, ms < 60000 → pad (ms / 60000) = "00") := by
  refine ⟨fun ms => rfl, fun ms => ⟨?_, rfl⟩, fun ms h => ?_, fun ms => ⟨?_, ?_⟩,
    by decide, by decide, by decide, fun ms h => ?_⟩
  · have h1 := pad_length (ms / 60000); omega
  · have h100 : 100 ≤ ms / 60000 := by
      rw [Nat.le_div_iff_mul_le (by omega)]; omega
    refine ⟨?_, pad_eq_repr _ h100⟩
    have h3 : 3 ≤ (Nat.repr (ms / 60000)).length :=
      repr_length_lower _ 2 (by simpa using h100)
    have h1 := pad_length (ms / 60000); omega
  · exact pad_length_eq_two _ (by omega)
  · exact pad_length_eq_two _ (by omega)
  · have h0 : ms / 60000 = 0 := Nat.div_eq_of_lt h
    rw [h0]; rfl

/-- Witness for C2: its hypotheses discharged at ms = 6000000 (exactly 100
minutes) and at ms = 59999 (the last value below one minute). -/
theorem c2_witness :
    (3 ≤ (pad (6000000 / 60000)).length
      ∧ pad (6000000 / 60000) = Nat.repr (6000000 / 60000))
    ∧ pad (59999 / 60000) = "00" :=
  ⟨c2_formatTime.2.2.1 6000000 (by decide),
   c2_formatTime.2.2.2.2.2.2.2 59999 (by decide)⟩
